import Mathlib

/-!
Verification development for the CarPlay external-process supervisor
(`CarPlayManager` in `modules/carplay_module.py`).

The supervisor owns one external process.  Its in-process state is five
fields (`is_running`, `carplay_process`, `last_status`, `connected_device`,
`error_message`).  The operations `start`, `stop`, `restart`, `send_key`,
`get_status` and the background output monitor are embedded below as pure
functions over that state.  Interactions with the operating system
(existence of the built binary, USB dongle enumeration, the fate of a
spawned process during the 0.5 s grace window, exceptions raised while
terminating, existence of the named pipe) are modelled as explicit
environment inputs; side effects (the written settings file, spawned
process ids, bytes written to the pipe) are returned explicitly.
-/

namespace CarStereo

/-- Configuration of one `start` call: the `fullscreen`, `width`, `height`
parameters of `CarPlayManager.start`, rendered into the settings file. -/
structure EngineConfig where
  fullscreen : Bool
  width : Nat
  height : Nat
deriving Repr, DecidableEq

/-- The mutable fields of `CarPlayManager` set in `__init__`
(paths are fixed constants and are kept separately). -/
structure CarPlayState where
  is_running : Bool
  carplay_process : Option Nat
  last_status : String
  connected_device : Option String
  error_message : Option String
deriving Repr, DecidableEq

/-- `CarPlayManager.__init__`: not running, no process handle,
status `stopped`, no device, no error. -/
def CarPlayManager.init : CarPlayState :=
  ⟨false, none, "stopped", none, none⟩

/-- Fixed path of the executable, relative to the project root
(`self.executable_path`). -/
def executable_path_str : String := "carplay_engine/out/app"

/-- Fixed path of the settings file (`self.settings_path`). -/
def settings_path_str : String := "carplay_engine/conf/settings.txt"

/-- Read-only environment probes used by `get_status`:
`is_built()` (does the executable exist) and `is_dongle_connected()`
(USB enumeration). -/
structure ProbeEnv where
  built : Bool
  dongle : Bool
deriving Repr, DecidableEq

/-- The dictionary returned by `CarPlayManager.get_status`. -/
structure StatusReport where
  running : Bool
  built : Bool
  status : String
  connected_device : Option String
  dongle_detected : Bool
  error : Option String
  executable_path : String
  settings_path : String
deriving Repr, DecidableEq

/-- `CarPlayManager.get_status`: a snapshot of the state together with the
two environment probes and the two fixed paths. -/
def CarPlayManager.get_status (env : ProbeEnv) (s : CarPlayState) : StatusReport :=
  ⟨s.is_running, env.built, s.last_status, s.connected_device,
   env.dongle, s.error_message, executable_path_str, settings_path_str⟩

/-- The result dictionaries returned by the control operations.
`start` / `stop` / `restart` build `{'success', 'message', 'status'}`;
`send_key` builds only `{'success', 'message'}`, which is modelled by
`status = none` (the key is absent from the returned dictionary). -/
structure OpResult where
  success : Bool
  message : String
  status : Option StatusReport
deriving Repr, DecidableEq

/-- Fate of the `subprocess.Popen` call in `start`, observed over the
0.5 s grace window:
* `alive pid` — the process was spawned and `poll()` is still `None`;
* `died pid stderrText` — the process was spawned but exited within the
  window; `stderrText` is the captured standard-error text (empty when
  nothing was captured, which Python treats as falsy);
* `fileNotFound` — `Popen` raised `FileNotFoundError` (no assignment to
  `carplay_process` happened);
* `raised msg` — some other exception was raised by the spawn
  (no assignment to `carplay_process` happened). -/
inductive SpawnOutcome where
  | alive (pid : Nat)
  | died (pid : Nat) (stderrText : String)
  | fileNotFound
  | raised (msg : String)
deriving Repr, DecidableEq

/-- Environment of one `start` call. -/
structure StartEnv where
  probe : ProbeEnv
  outcome : SpawnOutcome
deriving Repr, DecidableEq

/-- Side effects of one `start` call: the settings file content written by
`_write_settings` (the file is a pure rendering of the `EngineConfig`, so
the config itself is recorded), and the ids of spawned processes. -/
structure StartFx where
  settingsWritten : Option EngineConfig
  spawned : List Nat
deriving Repr, DecidableEq

/-- Return of `start`: the new state, the result dictionary, the effects. -/
structure StartRet where
  state : CarPlayState
  result : OpResult
  fx : StartFx
deriving Repr, DecidableEq

/-- `CarPlayManager.start(fullscreen, width, height)`.

Branches, in source order: already running → success, no effects;
not built → failure, no effects; otherwise the settings file is written
and the process spawned, and the grace-window outcome decides the rest.
On `alive` the state becomes running; on `died` the captured stderr (or a
default text when it is empty) is stored as `error_message` and the dead
handle stays in `carplay_process`; on the two exception branches only
`error_message` is set. -/
def CarPlayManager.start (cfg : EngineConfig) (env : StartEnv) (s : CarPlayState) :
    StartRet :=
  if s.is_running then
    ⟨s, ⟨true, "CarPlay already running", some (CarPlayManager.get_status env.probe s)⟩,
     ⟨none, []⟩⟩
  else if !env.probe.built then
    ⟨s, ⟨false, "FastCarPlay not built. Run build script first.",
        some (CarPlayManager.get_status env.probe s)⟩,
     ⟨none, []⟩⟩
  else
    match env.outcome with
    | .alive pid =>
        let s' : CarPlayState :=
          { s with carplay_process := some pid, is_running := true,
                   last_status := "running", error_message := none }
        ⟨s', ⟨true, "CarPlay started successfully",
             some (CarPlayManager.get_status env.probe s')⟩,
         ⟨some cfg, [pid]⟩⟩
    | .died pid stderrText =>
        let em : String :=
          if stderrText = "" then "Process terminated unexpectedly" else stderrText
        let s' : CarPlayState :=
          { s with carplay_process := some pid, error_message := some em }
        ⟨s', ⟨false, "CarPlay failed to start: " ++ em,
             some (CarPlayManager.get_status env.probe s')⟩,
         ⟨some cfg, [pid]⟩⟩
    | .fileNotFound =>
        let s' : CarPlayState :=
          { s with error_message := some "FastCarPlay executable not found" }
        ⟨s', ⟨false, "FastCarPlay executable not found",
             some (CarPlayManager.get_status env.probe s')⟩,
         ⟨some cfg, []⟩⟩
    | .raised m =>
        let s' : CarPlayState := { s with error_message := some m }
        ⟨s', ⟨false, m, some (CarPlayManager.get_status env.probe s')⟩, ⟨some cfg, []⟩⟩

/-- Environment of one `stop` call: the status probes and whether the
terminate/wait/kill sequence raised an exception. -/
structure StopEnv where
  probe : ProbeEnv
  terminateRaises : Bool
deriving Repr, DecidableEq

/-- Return of `stop`: the new state and the result dictionary. -/
structure StopRet where
  state : CarPlayState
  result : OpResult
deriving Repr, DecidableEq

/-- `CarPlayManager.stop`.

First branch: `not self.is_running or not self.carplay_process` → sets
`is_running = False`, `last_status = 'stopped'` and returns success
"was not running" without touching the other fields.  Otherwise the
process is terminated; if that raises, the `except` clause sets only
`is_running` and `last_status` and still returns success.  On the normal
path all of `carplay_process`, `connected_device`, `error_message` are
cleared as well. -/
def CarPlayManager.stop (env : StopEnv) (s : CarPlayState) : StopRet :=
  if !s.is_running || s.carplay_process.isNone then
    let s' : CarPlayState := { s with is_running := false, last_status := "stopped" }
    ⟨s', ⟨true, "CarPlay was not running", some (CarPlayManager.get_status env.probe s')⟩⟩
  else if env.terminateRaises then
    let s' : CarPlayState := { s with is_running := false, last_status := "stopped" }
    ⟨s', ⟨true, "CarPlay stopped", some (CarPlayManager.get_status env.probe s')⟩⟩
  else
    let s' : CarPlayState :=
      { s with carplay_process := none, is_running := false,
               last_status := "stopped", connected_device := none,
               error_message := none }
    ⟨s', ⟨true, "CarPlay stopped successfully",
         some (CarPlayManager.get_status env.probe s')⟩⟩

/-- `CarPlayManager.restart`: `self.stop()`, a 1 s sleep, then
`self.start()` with the default arguments
(`fullscreen=True, width=800, height=480`). -/
def CarPlayManager.restart (es : StopEnv) (est : StartEnv) (s : CarPlayState) :
    StartRet :=
  CarPlayManager.start ⟨true, 800, 480⟩ est (CarPlayManager.stop es s).state

/-- ASCII lower-casing of one character, as Python's `str.lower` acts on
the ASCII key names used here. -/
def lowerChar (c : Char) : Char :=
  if 'A' ≤ c ∧ c ≤ 'Z' then Char.ofNat (c.toNat + 32) else c

/-- `key_code.lower()` in `send_key` (ASCII case mapping). -/
def pyLower (s : String) : String := ⟨s.data.map lowerChar⟩

/-- The `key_map` dictionary of `CarPlayManager.send_key`. -/
def key_map (k : String) : Option Nat :=
  if k = "left" then some 100
  else if k = "right" then some 101
  else if k = "select_down" then some 104
  else if k = "select_up" then some 105
  else if k = "select" then some 104
  else if k = "back" then some 106
  else if k = "home" then some 200
  else none

/-- Return of `send_key`: the result dictionary (which carries no status
snapshot) and the bytes written to the named pipe, in order. -/
structure KeyRet where
  result : OpResult
  written : List Nat
deriving Repr, DecidableEq

/-- `CarPlayManager.send_key(key_code)`.

Fails when the named pipe is absent or when the lower-cased key name is
not in `key_map`; otherwise writes the mapped byte, plus byte 105
(`select_up`) when the lower-cased name is `select`.  The returned
dictionary has only `success` and `message` keys. -/
def CarPlayManager.send_key (pipeExists : Bool) (key_code : String) : KeyRet :=
  if !pipeExists then
    ⟨⟨false, "Key pipe not available", none⟩, []⟩
  else
    match key_map (pyLower key_code) with
    | none => ⟨⟨false, "Unknown key: " ++ key_code, none⟩, []⟩
    | some code =>
        ⟨⟨true, "Key " ++ key_code ++ " sent", none⟩,
         if pyLower key_code = "select" then [code, 105] else [code]⟩

/-- Classification of one line read by `_monitor_output`, by the
`elif` chain of marker substrings: a line containing `Connected`, else
one containing `Disconnected`, else one containing `Error`, else any
other line. -/
inductive MonitorSig where
  | connected
  | disconnected
  | errorLine (text : String)
  | other
deriving Repr, DecidableEq

/-- Per-line action of `_monitor_output` on the state. -/
def monitorLine (sig : MonitorSig) (s : CarPlayState) : CarPlayState :=
  match sig with
  | .connected =>
      { s with last_status := "connected",
               connected_device := some "CarPlay/Android Auto" }
  | .disconnected =>
      { s with last_status := "waiting", connected_device := none }
  | .errorLine t => { s with error_message := some t }
  | .other => s

/-- The exit branch of `_monitor_output`: while the loop guard
`self.is_running and self.carplay_process` holds and `poll()` reports
exit, the monitor flips `is_running` off and records `stopped`; the dead
handle is not cleared. -/
def monitorExit (s : CarPlayState) : CarPlayState :=
  if s.is_running && s.carplay_process.isSome then
    { s with is_running := false, last_status := "stopped" }
  else s

/-- One externally observable event in the life of the supervisor:
a completed `start`, `stop` or `restart` call, an exit of the external
process observed by the monitor thread, or one output line handled by
the monitor thread (line handling also happens only under the loop
guard `is_running and carplay_process`). -/
inductive Event where
  | startE (cfg : EngineConfig) (env : StartEnv)
  | stopE (env : StopEnv)
  | restartE (es : StopEnv) (est : StartEnv)
  | exitE
  | lineE (sig : MonitorSig)
deriving Repr, DecidableEq

/-- State transition of one event. -/
def step (s : CarPlayState) (e : Event) : CarPlayState :=
  match e with
  | .startE cfg env => (CarPlayManager.start cfg env s).state
  | .stopE env => (CarPlayManager.stop env s).state
  | .restartE es est => (CarPlayManager.restart es est s).state
  | .exitE => monitorExit s
  | .lineE sig =>
      if s.is_running && s.carplay_process.isSome then monitorLine sig s else s

/-- The state after running a sequence of events from a fresh manager. -/
def run (t : List Event) : CarPlayState :=
  t.foldl step CarPlayManager.init

/-- Does a `start` from a non-running state succeed with a live process:
the binary is built and the spawned process survives the grace window. -/
def startFreshOk (env : StartEnv) : Bool :=
  env.probe.built &&
    (match env.outcome with
     | .alive _ => true
     | _ => false)

/-- Modelled from the spec: one step of the claimed characterisation of
the running flag.  A `start` call counts as a successful start when the
manager was already running (it returns success) or when a fresh spawn
stays alive; a `stop` and an observed process exit mean the last
lifecycle operation is no longer a start; a `restart` runs `stop` then a
fresh `start`, so it counts exactly when its start half succeeds; a
monitor output line is not a lifecycle operation. -/
def specStep (r : Bool) (e : Event) : Bool :=
  match e with
  | .startE _ env => r || startFreshOk env
  | .stopE _ => false
  | .restartE _ est => startFreshOk est
  | .exitE => false
  | .lineE _ => r

/-- Modelled from the spec: the claimed characterisation of the running
flag — after a sequence of events, `running` holds if and only if the
last completed lifecycle operation was a successful `start` that has not
been followed by a `stop` or an observed process exit. -/
def specRunningAfter (t : List Event) : Bool :=
  t.foldl specStep false

/-!  Helper lemmas: the coupled invariant relating the code state to the
spec-side running predicate, preserved by every event. -/

/-- The code state agrees with the spec-side running bit, and a running
state always holds a process handle. -/
def Inv (s : CarPlayState) (r : Bool) : Prop :=
  s.is_running = r ∧ (s.is_running = true → s.carplay_process.isSome = true)

theorem start_inv (cfg : EngineConfig) (env : StartEnv) (s : CarPlayState)
    (hp : s.is_running = true → s.carplay_process.isSome = true) :
    Inv (CarPlayManager.start cfg env s).state (s.is_running || startFreshOk env) := by
  obtain ⟨⟨built, dongle⟩, outcome⟩ := env
  cases hrun : s.is_running with
  | false =>
    cases hb : built with
    | false => simp [CarPlayManager.start, startFreshOk, Inv, hrun, hb, hp]
    | true =>
      cases outcome <;>
        simp [CarPlayManager.start, startFreshOk, Inv, hrun, hb, hp]
  | true => simp [CarPlayManager.start, startFreshOk, Inv, hrun, hp hrun]

theorem stop_state_inv (env : StopEnv) (s : CarPlayState) :
    Inv (CarPlayManager.stop env s).state false := by
  by_cases h1 : (!s.is_running || s.carplay_process.isNone) = true
  · simp [CarPlayManager.stop, h1, Inv]
  · by_cases h2 : env.terminateRaises = true <;>
      simp [CarPlayManager.stop, h1, h2, Inv]

theorem step_inv (e : Event) (s : CarPlayState) (r : Bool) (h : Inv s r) :
    Inv (step s e) (specStep r e) := by
  obtain ⟨hr, hp⟩ := h
  subst hr
  cases e with
  | startE cfg env => simpa [step, specStep] using start_inv cfg env s hp
  | stopE env => simpa [step, specStep] using stop_state_inv env s
  | restartE es est =>
    have h2 := start_inv ⟨true, 800, 480⟩ est (CarPlayManager.stop es s).state
      (stop_state_inv es s).2
    rw [(stop_state_inv es s).1] at h2
    simpa [step, specStep, CarPlayManager.restart] using h2
  | exitE =>
    by_cases hg : (s.is_running && s.carplay_process.isSome) = true
    · simp [step, monitorExit, hg, specStep, Inv]
    · have hrun : s.is_running = false := by
        cases hrun : s.is_running with
        | false => rfl
        | true => exact absurd (by simp [hrun, hp hrun]) hg
      simp [step, monitorExit, hg, specStep, Inv, hrun]
  | lineE sig =>
    by_cases hg : (s.is_running && s.carplay_process.isSome) = true
    · cases sig <;> simp [step, monitorLine, hg, specStep, Inv] <;> exact hp
    · simp [step, hg, specStep, Inv]
      exact hp

theorem foldl_inv (t : List Event) :
    ∀ s r, Inv s r → Inv (t.foldl step s) (t.foldl specStep r) := by
  induction t with
  | nil => intro s r h; simpa using h
  | cons e t ih => intro s r h; simpa using ih _ _ (step_inv e s r h)

theorem run_inv (t : List Event) : Inv (run t) (specRunningAfter t) :=
  foldl_inv t CarPlayManager.init false
    ⟨rfl, by intro h; simp [CarPlayManager.init] at h⟩

/-- The configuration argument of `start` flows only into the written
settings file: the resulting state and result dictionary do not depend
on it. -/
theorem start_config_agnostic (cfg cfg' : EngineConfig) (env : StartEnv)
    (s : CarPlayState) :
    (CarPlayManager.start cfg env s).state = (CarPlayManager.start cfg' env s).state ∧
    (CarPlayManager.start cfg env s).result = (CarPlayManager.start cfg' env s).result := by
  obtain ⟨⟨built, dongle⟩, outcome⟩ := env
  cases hrun : s.is_running with
  | false =>
    cases hb : built with
    | false => simp [CarPlayManager.start, hrun, hb]
    | true => cases outcome <;> simp [CarPlayManager.start, hrun, hb]
  | true => simp [CarPlayManager.start, hrun]

/-- Every branch of `start` returns a dictionary carrying a status
snapshot. -/
theorem start_has_status (cfg : EngineConfig) (env : StartEnv) (s : CarPlayState) :
    (CarPlayManager.start cfg env s).result.status.isSome = true := by
  obtain ⟨⟨built, dongle⟩, outcome⟩ := env
  cases hrun : s.is_running with
  | false =>
    cases hb : built with
    | false => simp [CarPlayManager.start, hrun, hb]
    | true => cases outcome <;> simp [CarPlayManager.start, hrun, hb]
  | true => simp [CarPlayManager.start, hrun]

/-- Every branch of `stop` returns a dictionary carrying a status
snapshot. -/
theorem stop_has_status (env : StopEnv) (s : CarPlayState) :
    (CarPlayManager.stop env s).result.status.isSome = true := by
  by_cases h1 : (!s.is_running || s.carplay_process.isNone) = true
  · simp [CarPlayManager.stop, h1]
  · by_cases h2 : env.terminateRaises = true <;> simp [CarPlayManager.stop, h1, h2]

/-- Every branch of `send_key` returns a dictionary without a status
snapshot. -/
theorem send_key_no_status (p : Bool) (k : String) :
    (CarPlayManager.send_key p k).result.status = none := by
  cases p with
  | false => simp [CarPlayManager.send_key]
  | true => cases h : key_map (pyLower k) <;> simp [CarPlayManager.send_key, h]

/-!  The claims. -/

/-- C1: for every finite sequence of completed `start`/`stop`/`restart`
calls (together with monitor-observed exits and monitor-handled output
lines), the running flag is true after the sequence if and only if the
last completed lifecycle operation was a successful `start` that has not
been followed by a `stop` or an observed process exit, the
characterisation written from the spec as `specRunningAfter`. -/
theorem running_iff_last_successful_start (t : List Event) :
    (run t).is_running = specRunningAfter t :=
  (run_inv t).1

/-- C2 counterexample: after a `start` whose process dies inside the
grace window, a completed `stop` call returns success but leaves the
stale process handle and the recorded error in place, so `stop` does not
always clear `carplay_process` and `error_message` on return. -/
theorem stop_clears_counterexample :
    (CarPlayManager.stop ⟨⟨true, false⟩, false⟩
        (run [Event.startE ⟨true, 800, 480⟩
          ⟨⟨true, false⟩, .died 7 "boom"⟩])).result.success = true ∧
    (CarPlayManager.stop ⟨⟨true, false⟩, false⟩
        (run [Event.startE ⟨true, 800, 480⟩
          ⟨⟨true, false⟩, .died 7 "boom"⟩])).state.error_message = some "boom" ∧
    (CarPlayManager.stop ⟨⟨true, false⟩, false⟩
        (run [Event.startE ⟨true, 800, 480⟩
          ⟨⟨true, false⟩, .died 7 "boom"⟩])).state.carplay_process = some 7 := by
  decide

/-- C2 amended: every `stop` call returns success with `is_running`
false and `last_status` `stopped` on return; the process handle,
connected device and error message are additionally cleared when a
running process with a handle is terminated without an internal error
(on the not-running and exception paths they keep their prior values). -/
theorem stop_always_succeeds_and_stops (env : StopEnv) (s : CarPlayState) :
    ((CarPlayManager.stop env s).result.success = true ∧
     (CarPlayManager.stop env s).state.is_running = false ∧
     (CarPlayManager.stop env s).state.last_status = "stopped") ∧
    (s.is_running = true → s.carplay_process.isSome = true →
      env.terminateRaises = false →
      (CarPlayManager.stop env s).state.carplay_process = none ∧
      (CarPlayManager.stop env s).state.connected_device = none ∧
      (CarPlayManager.stop env s).state.error_message = none) := by
  by_cases h1 : (!s.is_running || s.carplay_process.isNone) = true
  · refine ⟨by simp [CarPlayManager.stop, h1], ?_⟩
    intro hr hps _
    exfalso
    rw [hr] at h1
    cases hc : s.carplay_process with
    | none => rw [hc] at hps; simp at hps
    | some pid => rw [hc] at h1; simp at h1
  · by_cases h2 : env.terminateRaises = true
    · refine ⟨by simp [CarPlayManager.stop, h1, h2], ?_⟩
      intro hd hps h3
      rw [h2] at h3
      exact absurd h3 (by decide)
    · exact ⟨by simp [CarPlayManager.stop, h1, h2],
        fun hd hps h3 => by simp [CarPlayManager.stop, h1, h2]⟩

/-- C2 witness: the amended statement applied to a running manager whose
termination succeeds. -/
theorem stop_always_succeeds_and_stops_witness :
    (CarPlayManager.stop ⟨⟨true, true⟩, false⟩
        ⟨true, some 5, "running", none, none⟩).result.success = true ∧
    (CarPlayManager.stop ⟨⟨true, true⟩, false⟩
        ⟨true, some 5, "running", none, none⟩).state.carplay_process = none ∧
    (CarPlayManager.stop ⟨⟨true, true⟩, false⟩
        ⟨true, some 5, "running", none, none⟩).state.error_message = none :=
  ⟨(stop_always_succeeds_and_stops ⟨⟨true, true⟩, false⟩
      ⟨true, some 5, "running", none, none⟩).1.1,
   ((stop_always_succeeds_and_stops ⟨⟨true, true⟩, false⟩
      ⟨true, some 5, "running", none, none⟩).2 rfl rfl rfl).1,
   ((stop_always_succeeds_and_stops ⟨⟨true, true⟩, false⟩
      ⟨true, some 5, "running", none, none⟩).2 rfl rfl rfl).2.2⟩

/-- C3 counterexample: after a `start` whose process dies inside the
grace window, the supervisor is not running yet still holds the dead
process handle, so `carplay_process` non-null is not equivalent to
`is_running`. -/
theorem handle_without_running_counterexample :
    (run [Event.startE ⟨true, 800, 480⟩
        ⟨⟨true, false⟩, .died 9 "crash"⟩]).is_running = false ∧
    (run [Event.startE ⟨true, 800, 480⟩
        ⟨⟨true, false⟩, .died 9 "crash"⟩]).carplay_process = some 9 := by
  decide

/-- C3 amended: at every state observable outside a public operation,
if the running flag is true then the process handle is non-null (only
this direction of the claimed equivalence holds). -/
theorem running_implies_handle (t : List Event)
    (h : (run t).is_running = true) :
    (run t).carplay_process.isSome = true :=
  (run_inv t).2 h

/-- C3 witness: the amended statement applied after one successful
`start`. -/
theorem running_implies_handle_witness :
    (run [Event.startE ⟨true, 800, 480⟩ ⟨⟨true, true⟩, .alive 4⟩]).is_running = true ∧
    (run [Event.startE ⟨true, 800, 480⟩
        ⟨⟨true, true⟩, .alive 4⟩]).carplay_process.isSome = true :=
  ⟨by decide,
   running_implies_handle [Event.startE ⟨true, 800, 480⟩ ⟨⟨true, true⟩, .alive 4⟩]
     (by decide)⟩

/-- C4: `restart` is observably equivalent to `stop` followed by `start`
with the same arguments as the preceding start: for any arguments
`cfgPrev` of that preceding start, the state and the returned result
(status snapshot included) after `restart` equal those after a manual
`stop` then `start cfgPrev`, under the same environment behaviour. -/
theorem restart_equiv_stop_start (cfgPrev : EngineConfig) (es : StopEnv)
    (est : StartEnv) (s : CarPlayState) :
    (CarPlayManager.restart es est s).state =
      (CarPlayManager.start cfgPrev est (CarPlayManager.stop es s).state).state ∧
    (CarPlayManager.restart es est s).result =
      (CarPlayManager.start cfgPrev est (CarPlayManager.stop es s).state).result := by
  unfold CarPlayManager.restart
  exact start_config_agnostic ⟨true, 800, 480⟩ cfgPrev est
    (CarPlayManager.stop es s).state

/-- C5: with the named pipe present, `send_key "select"` writes exactly
the bytes 104 then 105 and succeeds, `send_key "left"` writes exactly
the byte 100 and succeeds, and `send_key "bogus"` fails and writes
nothing. -/
theorem send_key_byte_protocol :
    ((CarPlayManager.send_key true "select").written = [104, 105] ∧
     (CarPlayManager.send_key true "select").result.success = true) ∧
    ((CarPlayManager.send_key true "left").written = [100] ∧
     (CarPlayManager.send_key true "left").result.success = true) ∧
    ((CarPlayManager.send_key true "bogus").result.success = false ∧
     (CarPlayManager.send_key true "bogus").written = []) := by
  decide

/-- C6: when a fresh `start` is attempted with the binary built and the
spawned process exits within the grace window, `start` fails, its
message carries the captured standard-error text (or the fixed fallback
text when nothing was captured), the same text is stored as
`error_message`, and the running flag stays false. -/
theorem start_early_exit_failure (cfg : EngineConfig) (env : StartEnv)
    (s : CarPlayState) (pid : Nat) (errText : String)
    (hrun : s.is_running = false) (hbuilt : env.probe.built = true)
    (hout : env.outcome = SpawnOutcome.died pid errText) :
    (CarPlayManager.start cfg env s).result.success = false ∧
    (CarPlayManager.start cfg env s).result.message =
      "CarPlay failed to start: " ++
        (if errText = "" then "Process terminated unexpectedly" else errText) ∧
    (errText ≠ "" →
      ∃ pre, (CarPlayManager.start cfg env s).result.message = pre ++ errText) ∧
    (CarPlayManager.start cfg env s).state.error_message =
      some (if errText = "" then "Process terminated unexpectedly" else errText) ∧
    (CarPlayManager.start cfg env s).state.is_running = false := by
  refine ⟨?_, ?_, ?_, ?_, ?_⟩
  · simp [CarPlayManager.start, hrun, hbuilt, hout]
  · simp [CarPlayManager.start, hrun, hbuilt, hout]
  · intro hne
    refine ⟨"CarPlay failed to start: ", ?_⟩
    simp [CarPlayManager.start, hrun, hbuilt, hout, hne]
  · simp [CarPlayManager.start, hrun, hbuilt, hout]
  · simp [CarPlayManager.start, hrun, hbuilt, hout]

/-- C6 witness: a fresh manager, a built binary, and a process that dies
in the grace window with captured text. -/
theorem start_early_exit_failure_witness :
    (CarPlayManager.start ⟨true, 800, 480⟩ ⟨⟨true, false⟩, .died 3 "no display"⟩
        CarPlayManager.init).result.success = false ∧
    (CarPlayManager.start ⟨true, 800, 480⟩ ⟨⟨true, false⟩, .died 3 "no display"⟩
        CarPlayManager.init).state.is_running = false := by
  have h := start_early_exit_failure ⟨true, 800, 480⟩
    ⟨⟨true, false⟩, .died 3 "no display"⟩ CarPlayManager.init 3 "no display"
    rfl rfl rfl
  exact ⟨h.1, h.2.2.2.2⟩

/-- C7: when the manager is not running and the binary is not built,
`start` fails with the not-built message, leaves the state unchanged and
performs no side effect (no settings write, no spawn), so the running
flag stays false. -/
theorem start_not_built_failure (cfg : EngineConfig) (env : StartEnv)
    (s : CarPlayState) (hrun : s.is_running = false)
    (hbuilt : env.probe.built = false) :
    (CarPlayManager.start cfg env s).result.success = false ∧
    (CarPlayManager.start cfg env s).result.message =
      "FastCarPlay not built. Run build script first." ∧
    (CarPlayManager.start cfg env s).state = s ∧
    (CarPlayManager.start cfg env s).fx = ⟨none, []⟩ := by
  simp [CarPlayManager.start, hrun, hbuilt]

/-- C7 witness: a fresh manager with no built binary. -/
theorem start_not_built_failure_witness :
    (CarPlayManager.start ⟨true, 800, 480⟩ ⟨⟨false, false⟩, .fileNotFound⟩
        CarPlayManager.init).result.success = false ∧
    (CarPlayManager.start ⟨true, 800, 480⟩ ⟨⟨false, false⟩, .fileNotFound⟩
        CarPlayManager.init).state = CarPlayManager.init := by
  have h := start_not_built_failure ⟨true, 800, 480⟩ ⟨⟨false, false⟩, .fileNotFound⟩
    CarPlayManager.init rfl rfl
  exact ⟨h.1, h.2.2.1⟩

/-- C8: `start` called while already running returns success with the
already-running message, leaves the whole state unchanged and performs
no side effect (no settings write, no second spawn). -/
theorem start_already_running_noop (cfg : EngineConfig) (env : StartEnv)
    (s : CarPlayState) (hrun : s.is_running = true) :
    (CarPlayManager.start cfg env s).result.success = true ∧
    (CarPlayManager.start cfg env s).result.message = "CarPlay already running" ∧
    (CarPlayManager.start cfg env s).state = s ∧
    (CarPlayManager.start cfg env s).fx = ⟨none, []⟩ := by
  simp [CarPlayManager.start, hrun]

/-- C8 witness: a running manager. -/
theorem start_already_running_noop_witness :
    (CarPlayManager.start ⟨true, 800, 480⟩ ⟨⟨true, true⟩, .alive 8⟩
        ⟨true, some 2, "running", none, none⟩).result.success = true ∧
    (CarPlayManager.start ⟨true, 800, 480⟩ ⟨⟨true, true⟩, .alive 8⟩
        ⟨true, some 2, "running", none, none⟩).state =
      ⟨true, some 2, "running", none, none⟩ := by
  have h := start_already_running_noop ⟨true, 800, 480⟩ ⟨⟨true, true⟩, .alive 8⟩
    ⟨true, some 2, "running", none, none⟩ rfl
  exact ⟨h.1, h.2.2.1⟩

/-- C9 counterexample: a successful `send_key` call returns a dictionary
with no status snapshot, so not every control-surface operation returns
the `{success, message, status}` shape. -/
theorem send_key_shape_counterexample :
    (CarPlayManager.send_key true "home").result.success = true ∧
    (CarPlayManager.send_key true "home").result.status = none := by
  decide

/-- C9 amended: `start`, `stop` and `restart` each return a
`{success, message, status}`-shaped result, while `send_key` returns
only `{success, message}` with no status snapshot (and `get_status`
returns the bare snapshot itself). -/
theorem control_surface_result_shapes (cfg : EngineConfig) (env : StartEnv)
    (es : StopEnv) (est : StartEnv) (senv : StopEnv) (s s₂ s₃ : CarPlayState)
    (p : Bool) (k : String) :
    (CarPlayManager.start cfg env s).result.status.isSome = true ∧
    (CarPlayManager.stop senv s₂).result.status.isSome = true ∧
    (CarPlayManager.restart es est s₃).result.status.isSome = true ∧
    (CarPlayManager.send_key p k).result.status = none :=
  ⟨start_has_status cfg env s, stop_has_status senv s₂,
   start_has_status ⟨true, 800, 480⟩ est (CarPlayManager.stop es s₃).state,
   send_key_no_status p k⟩

/-- C10 counterexample: `send_key "LEFT"` and `send_key "left"` do not
return the same result — the success message embeds the key name in its
original casing. -/
theorem send_key_casing_counterexample :
    (CarPlayManager.send_key true "LEFT").result ≠
      (CarPlayManager.send_key true "left").result := by
  decide

/-- C10 amended: `send_key` treats key names case-insensitively except
for the echoed message: any two spellings with the same lower-cased form
produce the same success flag and write the same bytes (in particular
any casing of `select` writes the two-byte expansion), while the message
embeds the spelling as given. -/
theorem send_key_lowercase_determined (p : Bool) (k k' : String)
    (h : pyLower k = pyLower k') :
    (CarPlayManager.send_key p k).written = (CarPlayManager.send_key p k').written ∧
    (CarPlayManager.send_key p k).result.success =
      (CarPlayManager.send_key p k').result.success := by
  cases p with
  | false => simp [CarPlayManager.send_key]
  | true =>
    simp only [CarPlayManager.send_key, h]
    cases hm : key_map (pyLower k') <;> simp

/-- C10 witness: the amended statement applied to `"Select"` and
`"select"`. -/
theorem send_key_lowercase_determined_witness :
    pyLower "Select" = pyLower "select" ∧
    (CarPlayManager.send_key true "Select").written =
      (CarPlayManager.send_key true "select").written ∧
    (CarPlayManager.send_key true "Select").result.success =
      (CarPlayManager.send_key true "select").result.success :=
  ⟨by decide,
   (send_key_lowercase_determined true "Select" "select" (by decide)).1,
   (send_key_lowercase_determined true "Select" "select" (by decide)).2⟩

end CarStereo
